import Mathlib

/-
  Verification of the accessor-generator's semantic field-model extraction and
  value-synthesis engine, shallowly embedded from the Go sources
  (option.go, init.go, and the loader/collector file).

  Conventions of the embedding:
  * Go `ast.Expr` type shapes handled by the code become the inductive `Expr`.
  * The semantic information produced by `packages.Load` for one directory is a
    `DirEnv`: `loadResult = none` models `loadPackages` returning an error
    (in which case the Go callers write `resp, _ := loadPackages(dirPath)` and
    then dereference the nil `resp`, a panic).  Within one run `loadPackages`
    is deterministic per directory (it is cached), so the per-directory
    functions take the fixed `DirEnv` instead of threading the cache; the
    cache/counter behaviour itself is modelled separately by `loadPackages`
    over a `CacheState`.
  * Functions that can panic return `Option`; `none` is the panic.
  * Go strings are Lean `String`s; the byte slice `fieldType[1:]` is
    `String.drop 1` (the dropped leading `*` is a one-byte character).
-/

namespace AccessorGen

mutual

/-- Go type-expression shapes distinguished by `exprToString`,
`isPrimitivePointer` and the two synthesizers (`ast.Ident`, `ast.StarExpr`,
`ast.SelectorExpr`, `ast.ArrayType`, `ast.MapType`, `ast.IndexExpr`,
`ast.IndexListExpr`, plus a stand-in for every other shape). -/
inductive Expr where
  | ident (name : String)
  | starExpr (x : Expr)
  | selectorExpr (x : Expr) (sel : String)
  | arrayType (elt : Expr)
  | mapType (key value : Expr)
  | indexExpr (x index : Expr)
  | indexListExpr (x : Expr) (indices : ExprList)
  | otherExpr

/-- The index list of an `ast.IndexListExpr` (a mutual list type, so that the
renderer stays structurally recursive). -/
inductive ExprList where
  | nil
  | cons (e : Expr) (es : ExprList)

end

mutual

/-- Embeds Go `exprToString`: renders a field type expression to text; the
default arm of the Go switch renders to the empty string. -/
def exprToString : Expr → String
  | .ident name => name
  | .starExpr x => ("*") ++ exprToString x
  | .selectorExpr x sel => exprToString x ++ (".") ++ sel
  | .arrayType elt => ("[]") ++ exprToString elt
  | .mapType key value => ("map[") ++ exprToString key ++ ("]") ++ exprToString value
  | .indexExpr x index => exprToString x ++ ("[") ++ exprToString index ++ ("]")
  | .indexListExpr x indices =>
      exprToString x ++ ("[") ++ String.intercalate (", ") (exprListToString indices) ++ ("]")
  | .otherExpr => ("")

/-- Renders each index of an `ast.IndexListExpr` (the `for` loop building
`indices` in Go `exprToString`). -/
def exprListToString : ExprList → List String
  | .nil => []
  | .cons e es => exprToString e :: exprListToString es

end

/-- One loaded package: `typeOf e` models `pkg.TypesInfo.TypeOf(e)` followed by
the `Underlying().(*types.Basic)` inspection made by the callers —
`none` when `TypeOf` returns nil, `some none` when the type's underlying is
not basic, `some (some n)` when the underlying is a basic type named `n`. -/
structure Pkg where
  typeOf : Expr → Option (Option String)

/-- Semantic resolution of one directory: `loadResult = none` models
`loadPackages` failing with an error; `some pkgs` is the package list of the
cached `loadPackagesResponse`. -/
structure DirEnv where
  loadResult : Option (List Pkg)

/-- The loop body of Go `isPrimitivePointer`: scans the packages in order;
a nil `TypeOf` result means `continue`; a basic underlying type means
`return true`; falling off the loop yields false. -/
def pkgsHaveBasic : List Pkg → Expr → Bool
  | [], _ => false
  | pkg :: rest, x =>
    match pkg.typeOf x with
    | none => pkgsHaveBasic rest x
    | some u => if u.isSome then true else pkgsHaveBasic rest x

/-- Embeds Go `isPrimitivePointer`.  `none` models the panic: when the type is
a `StarExpr` the code runs `resp, _ := loadPackages(dirPath)` and dereferences
`resp.packages`, which is a nil dereference when the load failed. -/
def isPrimitivePointer (fieldType : Expr) (env : DirEnv) : Option Bool :=
  match fieldType with
  | .starExpr x =>
    match env.loadResult with
    | none => none
    | some pkgs => some (pkgsHaveBasic pkgs x)
  | _ => some false

/-- The `name` loop shared by both synthesizers for a named identifier type:
a nil `TypeOf` makes the whole synthesizer `return ""` early (modelled `none`);
a basic underlying breaks with its name; a non-basic underlying continues; an
exhausted loop leaves `name` equal to the empty string. -/
def underlyingBasicName : List Pkg → Expr → Option String
  | [], _ => some ("")
  | pkg :: rest, x =>
    match pkg.typeOf x with
    | none => none
    | some (some bname) => some bname
    | some none => underlyingBasicName rest x

/-- The integer type names enumerated by the synthesizers' switch cases. -/
def intNames : List String :=
  [("int"), ("int8"), ("int16"), ("int32"), ("int64"),
   ("uint"), ("uint8"), ("uint16"), ("uint32"), ("uint64")]

/-- The three-element slice literal text built by both synthesizers
(`fmt.Sprintf` over the raw template, tabs and newlines as in the source). -/
def sliceLiteral (eltType eltZero : String) : String :=
  ("[]") ++ eltType ++ ("\x7b\n\t\t\t\t") ++ eltZero ++ (",\n\t\t\t\t")
    ++ eltZero ++ (",\n\t\t\t\t") ++ eltZero ++ (",\n\t\t\t\x7d")

/-- The single-entry map literal text built by both synthesizers. -/
def mapLiteral (keyType valueType keyZero valueZero : String) : String :=
  ("map[") ++ keyType ++ ("]") ++ valueType
    ++ ("\x7b\n\t\t\t\t") ++ keyZero ++ (": ") ++ valueZero ++ (",\n\t\t\t\x7d")

/-- The `ast.Ident` switch of Go `exprToTestDefaultValue`: the direct scalar
cases, then the semantic lookup of the underlying basic kind.  `none` models
the nil dereference after a failed load. -/
def identDefaultValue (nm : String) (env : DirEnv) : Option String :=
  if nm = ("string") then some ("\"str\"")
  else if nm ∈ intNames then some (nm ++ ("(1)"))
  else if nm = ("float32") ∨ nm = ("float64") then some (nm ++ ("(1.0)"))
  else if nm = ("bool") then some ("true")
  else if nm = ("byte") then some (("uint8(1)"))
  else
    match env.loadResult with
    | none => none
    | some pkgs =>
      match underlyingBasicName pkgs (.ident nm) with
      | none => some ("")
      | some bname =>
        if bname = ("string") then some (nm ++ ("(\"str\")"))
        else if bname ∈ intNames then some (nm ++ ("(1)"))
        else if bname = ("bool") then some (nm ++ ("(true)"))
        else if bname = ("float32") ∨ bname = ("float64") then some (nm ++ ("(1.0)"))
        else if bname = ("byte") then some (nm ++ ("1"))
        else some (nm ++ ("\x7b\x7d"))

/-- The `ast.Ident` switch of Go `exprToTestDefaultValue2`. -/
def identDefaultValue2 (nm : String) (env : DirEnv) : Option String :=
  if nm = ("string") then some ("\"str2\"")
  else if nm ∈ intNames then some (nm ++ ("(2)"))
  else if nm = ("float32") ∨ nm = ("float64") then some (nm ++ ("(2.0)"))
  else if nm = ("bool") then some ("true")
  else if nm = ("byte") then some (("uint8(2)"))
  else
    match env.loadResult with
    | none => none
    | some pkgs =>
      match underlyingBasicName pkgs (.ident nm) with
      | none => some ("")
      | some bname =>
        if bname = ("string") then some (nm ++ ("(\"str\")"))
        else if bname ∈ intNames then some (nm ++ ("(2)"))
        else if bname = ("bool") then some (nm ++ ("(false)"))
        else if bname = ("float32") ∨ bname = ("float64") then some (nm ++ ("(2.0)"))
        else if bname = ("byte") then some (nm ++ ("2"))
        else some (nm ++ ("\x7b\x7d"))

/-- Embeds Go `exprToTestDefaultValue` (value A).  The Go code first tests
`isPrimitivePointer(expr, dirPath)`; that test is false without consulting the
loader for every non-`StarExpr` shape, so the check is folded into the
`starExpr` arm here.  `none` models the panics inherited from `loadPackages`
being nil after a failed load. -/
def exprToTestDefaultValue (expr : Expr) (env : DirEnv) : Option String :=
  match expr with
  | .starExpr x =>
    match isPrimitivePointer (.starExpr x) env with
    | none => none
    | some true => exprToTestDefaultValue x env
    | some false => some (("new(") ++ exprToString x ++ (")"))
  | .arrayType elt =>
    match exprToTestDefaultValue elt env with
    | none => none
    | some eltZero => some (sliceLiteral (exprToString elt) eltZero)
  | .mapType key value =>
    match exprToTestDefaultValue key env with
    | none => none
    | some keyZero =>
      match exprToTestDefaultValue value env with
      | none => none
      | some valueZero =>
        some (mapLiteral (exprToString key) (exprToString value) keyZero valueZero)
  | .ident nm => identDefaultValue nm env
  | e => some (exprToString e ++ ("\x7b\x7d"))

/-- Embeds Go `exprToTestDefaultValue2` (value B).  All recursive calls on
subexpressions go to `exprToTestDefaultValue` (value A), exactly as in the
source; only the directly-identifier leaves differ. -/
def exprToTestDefaultValue2 (expr : Expr) (env : DirEnv) : Option String :=
  match expr with
  | .starExpr x =>
    match isPrimitivePointer (.starExpr x) env with
    | none => none
    | some true => exprToTestDefaultValue x env
    | some false => some (("new(") ++ exprToString x ++ (")"))
  | .arrayType elt =>
    match exprToTestDefaultValue elt env with
    | none => none
    | some eltZero => some (sliceLiteral (exprToString elt) eltZero)
  | .mapType key value =>
    match exprToTestDefaultValue key env with
    | none => none
    | some keyZero =>
      match exprToTestDefaultValue value env with
      | none => none
      | some valueZero =>
        some (mapLiteral (exprToString key) (exprToString value) keyZero valueZero)
  | .ident nm => identDefaultValue2 nm env
  | e => some (exprToString e ++ ("\x7b\x7d"))

/-- One field entry of a struct declaration (`ast.Field`): the names bound by
the entry and the shared type expression. -/
structure Field where
  names : List String
  type : Expr

/-- The right-hand side of a type spec: a struct literal type with its field
list, or any other shape (interface, alias, scalar renaming, ...), which the
collector skips. -/
inductive TypeSpecRhs where
  | structType (fields : List Field)
  | nonStruct

/-- A spec inside a `GenDecl` (`ast.TypeSpec` or any other spec kind).
`typeParams = none` models a nil `TypeParams` field list; each group is the
name list of one type-parameter field. -/
inductive GoSpec where
  | typeSpec (name : String) (typeParams : Option (List (List String))) (rhs : TypeSpecRhs)
  | otherSpec

/-- A top-level declaration: a `GenDecl` whose token may or may not be
`token.TYPE`, or any other declaration kind. -/
inductive GoDecl where
  | genDecl (isTypeToken : Bool) (specs : List GoSpec)
  | otherDecl

/-- One import of the parsed file: `path` is `imp.Path.Value` (quotes and all)
and `aliasName` is the optional `imp.Name`. -/
structure ImportDecl where
  path : String
  aliasName : Option String

/-- A parsed compilation unit (`ast.File`): package name, imports, and
top-level declarations. -/
structure GoFile where
  pkgName : String
  imports : List ImportDecl
  decls : List GoDecl

/-- Embeds Go `collectImports`: an aliased import renders as
`name ++ " " ++ path`, otherwise the path alone, in declaration order. -/
def collectImports (node : GoFile) : List String :=
  node.imports.map fun imp =>
    match imp.aliasName with
    | some a => a ++ (" ") ++ imp.path
    | none => imp.path

/-- The generation mode.  In the source `ModeEnum` is a defined string type
(`type ModeEnum string`), not a closed enumeration, so it is a raw `String`
here. -/
abbrev ModeEnum := String

/-- The per-field template record built by `collectTmplData` (the fields the
source assigns to `StructField`). -/
structure StructField where
  name : String
  type : String
  deferrencedFieldType : String
  primitivePointer : Bool
  nonZeroValue : String
  nonZeroValue2 : String
deriving DecidableEq

/-- The per-struct template record (`StructInfo`). -/
structure StructInfo where
  structName : String
  fields : List StructField
  typeParamsStr : String
deriving DecidableEq

/-- The per-file template record (`FileData`). -/
structure FileData where
  packageName : String
  imports : List String
  structs : List StructInfo
  mode : ModeEnum
deriving DecidableEq

/-- The body of `collectTmplData`'s loop over one field entry: renders the
type, classifies it, computes the dereferenced type (`fieldType[1:]` when it is
a primitive pointer), synthesizes both example values, and then emits one
`StructField` per bound name.  `none` is a panic inherited from the
classifier/synthesizers. -/
def fieldEntryDescriptors (field : Field) (env : DirEnv) : Option (List StructField) :=
  match isPrimitivePointer field.type env with
  | none => none
  | some primitivePointer =>
    let fieldType := exprToString field.type
    let deferrenced := if primitivePointer then fieldType.drop 1 else ("")
    match exprToTestDefaultValue field.type env with
    | none => none
    | some nonZeroValue =>
      match exprToTestDefaultValue2 field.type env with
      | none => none
      | some nonZeroValue2 =>
        some (field.names.map fun nm =>
          { name := nm, type := fieldType, deferrencedFieldType := deferrenced,
            primitivePointer := primitivePointer, nonZeroValue := nonZeroValue,
            nonZeroValue2 := nonZeroValue2 })

/-- The loop over a struct's field entries: accumulates the descriptors and the
`fieldCnt` contribution (one per bound name). -/
def structFieldsOf (fields : List Field) (env : DirEnv) : Option (List StructField × Nat) :=
  match fields with
  | [] => some ([], 0)
  | f :: rest =>
    match fieldEntryDescriptors f env with
    | none => none
    | some ds =>
      match structFieldsOf rest env with
      | none => none
      | some (ds', cnt) => some (ds ++ ds', f.names.length + cnt)

/-- The type-parameter name collection of `collectTmplData` (nested loop over
the `TypeParams` field list). -/
def typeParamNames (tps : Option (List (List String))) : List String :=
  match tps with
  | none => []
  | some groups => groups.foldr (fun g acc => g ++ acc) []

/-- The rendering of the collected type-parameter names: bracket-wrapped and
comma-joined when non-empty, otherwise the empty string. -/
def typeParamsStrOf (tps : Option (List (List String))) : String :=
  let ps := typeParamNames tps
  if ps.length > 0 then ("[") ++ String.intercalate (", ") ps ++ ("]") else ("")

/-- The loop over one `GenDecl`'s specs: every struct-typed `TypeSpec` appends
one `StructInfo` (regardless of its field count); other specs are skipped. -/
def collectFromSpecs (specs : List GoSpec) (env : DirEnv) : Option (List StructInfo × Nat) :=
  match specs with
  | [] => some ([], 0)
  | .otherSpec :: rest => collectFromSpecs rest env
  | .typeSpec _ _ .nonStruct :: rest => collectFromSpecs rest env
  | .typeSpec nm tps (.structType fields) :: rest =>
    match structFieldsOf fields env with
    | none => none
    | some (ds, cnt) =>
      match collectFromSpecs rest env with
      | none => none
      | some (sis, cnt') =>
        some ({ structName := nm, fields := ds, typeParamsStr := typeParamsStrOf tps } :: sis,
              cnt + cnt')

/-- The loop over the file's declarations: only `GenDecl`s carrying the
`token.TYPE` token are examined. -/
def collectFromDecls (decls : List GoDecl) (env : DirEnv) : Option (List StructInfo × Nat) :=
  match decls with
  | [] => some ([], 0)
  | .otherDecl :: rest => collectFromDecls rest env
  | .genDecl isType specs :: rest =>
    if isType then
      match collectFromSpecs specs env with
      | none => none
      | some (sis, cnt) =>
        match collectFromDecls rest env with
        | none => none
        | some (sis', cnt') => some (sis ++ sis', cnt + cnt')
    else collectFromDecls rest env

/-- Embeds Go `collectTmplData`.  The outer `none` is a panic; `some none`
models the `nil` return when no field was found (`fieldCnt == 0`);
`some (some fd)` is a produced `FileData`.  The directory path argument is
subsumed by `env`, the resolution of the file's directory. -/
def collectTmplData (node : GoFile) (mode : ModeEnum) (env : DirEnv) : Option (Option FileData) :=
  match collectFromDecls node.decls env with
  | none => none
  | some (structs, fieldCnt) =>
    if fieldCnt = 0 then some none
    else some (some { packageName := node.pkgName, imports := collectImports node,
                      structs := structs, mode := mode })

/-- Aggregate bound-name count of one spec (what the spec's "aggregate field
count" denotes for a struct-typed declaration). -/
def structSpecFieldCount : GoSpec → Nat
  | .typeSpec _ _ (.structType fields) => (fields.map (fun f => f.names.length)).sum
  | _ => 0

/-- Aggregate bound-name count of one declaration. -/
def declFieldCount : GoDecl → Nat
  | .genDecl true specs => (specs.map structSpecFieldCount).sum
  | _ => 0

/-- Aggregate field count of a compilation unit across all its records. -/
def aggregateFieldCount (node : GoFile) : Nat :=
  (node.decls.map declFieldCount).sum

/-- The mode constants of option.go. -/
def ModeUnknown : ModeEnum := ("")

/-- Mode constant `getter`. -/
def ModeGetter : ModeEnum := ("getter")

/-- Mode constant `setter`. -/
def ModeSetter : ModeEnum := ("setter")

/-- Mode constant `accessor` (the default). -/
def ModeAccessor : ModeEnum := ("accessor")

/-- The options record of option.go (`Dir` omitted: path cleaning is an
external collaborator and no claim touches it). -/
structure Options where
  mode : ModeEnum
  recursive : Bool
deriving DecidableEq

/-- A functional option (`FuncOption`). -/
abbrev FuncOption := Options → Options

/-- Embeds `FuncOptions.New` on the modelled fields: defaults then each option
applied in order. -/
def newOptions (fs : List FuncOption) : Options :=
  fs.foldl (fun o f => f o) { mode := ModeAccessor, recursive := false }

/-- Embeds the `Mode[T ~string]` option: stores the given string unchecked. -/
def Mode (m : String) : FuncOption := fun o => { o with mode := m }

/-- Embeds the `Recursive` option. -/
def Recursive (r : Bool) : FuncOption := fun o => { o with recursive := r }

/-- Embeds `EnableGetters`: `setter` maps to `accessor`, every other mode to
`getter` (the switch's default arm). -/
def EnableGetters : FuncOption := fun o =>
  if o.mode = ModeSetter then { o with mode := ModeAccessor } else { o with mode := ModeGetter }

/-- Embeds `EnableSetters`: `getter` maps to `accessor`, every other mode to
`setter`. -/
def EnableSetters : FuncOption := fun o =>
  if o.mode = ModeGetter then { o with mode := ModeAccessor } else { o with mode := ModeSetter }

/-- Embeds `DisableGetters`: `accessor` maps to `setter`, every other mode to
`unknown` (the empty string). -/
def DisableGetters : FuncOption := fun o =>
  if o.mode = ModeAccessor then { o with mode := ModeSetter } else { o with mode := ModeUnknown }

/-- Embeds `DisableSetters`: `accessor` maps to `getter`, every other mode to
`unknown`. -/
def DisableSetters : FuncOption := fun o =>
  if o.mode = ModeAccessor then { o with mode := ModeGetter } else { o with mode := ModeUnknown }

/-- The cached load response (`loadPackagesResponse`); `id` stands for the
allocation identity of the Go pointer, so identity equality of two responses is
plain equality here. -/
structure PkgResp where
  id : Nat
  packages : List Pkg

/-- What `packages.Load` would yield per directory in this run (`none` models
the call returning an error). -/
structure World where
  loadOutcome : String → Option (List Pkg)

/-- The mutable process state around `loadPackages`: the `packageCache` map,
the instrumented count of `packages.Load` invocations, and the next allocation
identity. -/
structure CacheState where
  cache : List (String × PkgResp)
  loadCalls : Nat
  nextId : Nat

/-- Lookup in the `packageCache` association list. -/
def findCache : List (String × PkgResp) → String → Option PkgResp
  | [], _ => none
  | (k, r) :: rest, p => if k = p then some r else findCache rest p

/-- Embeds Go `loadPackages` with its cache: a hit returns the stored response
unchanged; a miss invokes `packages.Load` (counting it), and on success
allocates a response, stores it, and returns it; on failure returns the
wrapped error without storing anything. -/
def loadPackages (w : World) (dirPath : String) (s : CacheState) :
    Except String PkgResp × CacheState :=
  match findCache s.cache dirPath with
  | some r => (.ok r, s)
  | none =>
    let s' : CacheState := { s with loadCalls := s.loadCalls + 1 }
    match w.loadOutcome dirPath with
    | none => (.error (("error loading package for ") ++ dirPath), s')
    | some pkgs =>
      let resp : PkgResp := { id := s'.nextId, packages := pkgs }
      (.ok resp,
       { s' with nextId := s'.nextId + 1, cache := (dirPath, resp) :: s'.cache })

/-- The scalar kind names matched directly by the first switch of both
synthesizers (the spec's closed set of scalar kinds). -/
def directScalarNames : List String :=
  [("string"), ("int"), ("int8"), ("int16"), ("int32"), ("int64"),
   ("uint"), ("uint8"), ("uint16"), ("uint32"), ("uint64"),
   ("float32"), ("float64"), ("bool"), ("byte")]

/-- Modelled from the spec's words "K's zero value": the textual zero/default
literal of each scalar kind, in the same typed rendering the synthesizers use,
so that textual distinctness mirrors value distinctness. -/
def zeroLiteralOfKind : String → String
  | ("string") => ("\"\"")
  | ("bool") => ("false")
  | ("byte") => ("uint8(0)")
  | ("float32") => ("float32(0.0)")
  | ("float64") => ("float64(0.0)")
  | k => k ++ ("(0)")

/-- A directory whose load succeeds with an empty package list. -/
def envEmptyPkgs : DirEnv := { loadResult := some [] }

/-- A directory whose load fails with an error (`loadPackages` returns nil). -/
def envLoadFail : DirEnv := { loadResult := none }

/-- A package resolving exactly one identifier to a basic underlying type of
the given name, and yielding no information for everything else. -/
def pkgBasicFor (nm k : String) : Pkg :=
  { typeOf := fun e =>
      match e with
      | .ident n => if n = nm then some (some k) else none
      | _ => none }

/-- A directory resolving `int` to the basic kind `int`. -/
def envIntBasic : DirEnv := { loadResult := some [pkgBasicFor ("int") ("int")] }

/-- A directory resolving `string` to the basic kind `string`. -/
def envStringBasic : DirEnv := { loadResult := some [pkgBasicFor ("string") ("string")] }

/-- A directory resolving the named type `MyStr` to underlying `string`. -/
def envMyStr : DirEnv := { loadResult := some [pkgBasicFor ("MyStr") ("string")] }

/-- A directory resolving the named type `MyInt` to underlying `int`. -/
def envMyInt : DirEnv := { loadResult := some [pkgBasicFor ("MyInt") ("int")] }

/-- A package that yields no type information for any expression. -/
def pkgNoInfo : Pkg := { typeOf := fun _ => none }

/-- A directory whose load succeeds but resolves nothing. -/
def envNoInfo : DirEnv := { loadResult := some [pkgNoInfo] }

/-- A unit declaring an empty record `Empty` and a one-field record `P`. -/
def twoStructFile : GoFile :=
  { pkgName := ("demo"), imports := [],
    decls := [.genDecl true
      [.typeSpec ("Empty") none (.structType []),
       .typeSpec ("P") none (.structType [{ names := [("x")], type := .ident ("int") }])]] }

/-- A unit whose only type declaration is an interface (spec scenario 5). -/
def interfaceOnlyFile : GoFile :=
  { pkgName := ("demo"), imports := [],
    decls := [.genDecl true [.typeSpec ("I") none .nonStruct]] }

/-- An arbitrary artifact value, used to instantiate never-produced claims. -/
def dummyFileData : FileData :=
  { packageName := ("p"), imports := [], structs := [], mode := ("accessor") }

/-- The artifact the collector produces for `twoStructFile`: the empty record
still contributes a field-less descriptor. -/
def twoStructFileData : FileData :=
  { packageName := ("demo"), imports := [],
    structs := [{ structName := ("Empty"), fields := [], typeParamsStr := ("") },
                { structName := ("P"),
                  fields := [{ name := ("x"), type := ("int"), deferrencedFieldType := (""),
                               primitivePointer := false, nonZeroValue := ("int(1)"),
                               nonZeroValue2 := ("int(2)") }],
                  typeParamsStr := ("") }],
    mode := ("accessor") }

/-- Options with a given mode and the other fields at their defaults. -/
def optWith (m : ModeEnum) : Options := { mode := m, recursive := false }

/-- The default options built by `FuncOptions.New` with no options applied. -/
def defaultOptions : Options := { mode := ModeAccessor, recursive := false }

/-- A run in which every directory loads successfully with no packages. -/
def world0 : World := { loadOutcome := fun _ => some [] }

/-- The initial process state: empty cache, no load calls. -/
def cacheState0 : CacheState := { cache := [], loadCalls := 0, nextId := 0 }

/-- The response allocated by the first successful load in `world0`. -/
def resp0 : PkgResp := { id := 0, packages := [] }

/-- The process state after one successful load of directory `d`. -/
def cacheState1 : CacheState :=
  { cache := [(("d"), resp0)], loadCalls := 1, nextId := 1 }
/-- Dropping one character from a string led by the one-byte `*` character
yields the remainder: the Lean rendering of the Go byte slice `fieldType[1:]`
applied to a rendered pointer type. -/
theorem string_drop_one_star (s : String) : (("*") ++ s).drop 1 = s := by
  rcases s with ⟨data⟩
  rw [String.drop_eq]
  rfl

/-- When no package has information for `x`, the classifier's loop falls
through and yields false. -/
theorem pkgsHaveBasic_eq_false (x : Expr) :
    ∀ pkgs : List Pkg, (∀ pkg ∈ pkgs, pkg.typeOf x = none) → pkgsHaveBasic pkgs x = false
  | [], _ => rfl
  | pkg :: rest, h => by
    have h0 : pkg.typeOf x = none := h pkg (by simp)
    have ih := pkgsHaveBasic_eq_false x rest (fun p hp => h p (by simp [hp]))
    simp [pkgsHaveBasic, h0, ih]

set_option maxHeartbeats 1000000 in
/-- The value-A identifier switch never panics once the load has succeeded. -/
theorem identDefaultValue_ne_none (env : DirEnv) (pkgs : List Pkg)
    (henv : env.loadResult = some pkgs) (nm : String) :
    identDefaultValue nm env ≠ none := by
  rw [identDefaultValue, henv]
  split_ifs <;> try simp
  cases h : underlyingBasicName pkgs (.ident nm) with
  | none => simp
  | some bname =>
    dsimp only
    split_ifs <;> simp

set_option maxHeartbeats 1000000 in
/-- The value-B identifier switch never panics once the load has succeeded. -/
theorem identDefaultValue2_ne_none (env : DirEnv) (pkgs : List Pkg)
    (henv : env.loadResult = some pkgs) (nm : String) :
    identDefaultValue2 nm env ≠ none := by
  rw [identDefaultValue2, henv]
  split_ifs <;> try simp
  cases h : underlyingBasicName pkgs (.ident nm) with
  | none => simp
  | some bname =>
    dsimp only
    split_ifs <;> simp

/-- Value-A synthesis is total (never panics) once the directory load has
succeeded. -/
theorem exprToTestDefaultValue_ne_none (env : DirEnv) (pkgs : List Pkg)
    (henv : env.loadResult = some pkgs) :
    ∀ e : Expr, exprToTestDefaultValue e env ≠ none
  | .ident nm => by
    simpa [exprToTestDefaultValue] using identDefaultValue_ne_none env pkgs henv nm
  | .starExpr x => by
    have ih := exprToTestDefaultValue_ne_none env pkgs henv x
    simp only [exprToTestDefaultValue, isPrimitivePointer, henv]
    cases hb : pkgsHaveBasic pkgs x <;> simp [hb, ih]
  | .arrayType elt => by
    have ih := exprToTestDefaultValue_ne_none env pkgs henv elt
    simp only [exprToTestDefaultValue]
    cases h : exprToTestDefaultValue elt env with
    | none => exact absurd h ih
    | some v => simp [h]
  | .mapType key value => by
    have ihk := exprToTestDefaultValue_ne_none env pkgs henv key
    have ihv := exprToTestDefaultValue_ne_none env pkgs henv value
    simp only [exprToTestDefaultValue]
    cases hk : exprToTestDefaultValue key env with
    | none => exact absurd hk ihk
    | some kv =>
      cases hv : exprToTestDefaultValue value env with
      | none => exact absurd hv ihv
      | some vv => simp [hk, hv]
  | .selectorExpr x sel => by simp [exprToTestDefaultValue]
  | .indexExpr x index => by simp [exprToTestDefaultValue]
  | .indexListExpr x indices => by simp [exprToTestDefaultValue]
  | .otherExpr => by simp [exprToTestDefaultValue]

/-- Value-B synthesis is total once the directory load has succeeded. -/
theorem exprToTestDefaultValue2_ne_none (env : DirEnv) (pkgs : List Pkg)
    (henv : env.loadResult = some pkgs) (e : Expr) :
    exprToTestDefaultValue2 e env ≠ none := by
  cases e with
  | ident nm =>
    simpa [exprToTestDefaultValue2] using identDefaultValue2_ne_none env pkgs henv nm
  | starExpr x =>
    have ih := exprToTestDefaultValue_ne_none env pkgs henv x
    simp only [exprToTestDefaultValue2, isPrimitivePointer, henv]
    cases hb : pkgsHaveBasic pkgs x <;> simp [hb, ih]
  | arrayType elt =>
    have ih := exprToTestDefaultValue_ne_none env pkgs henv elt
    simp only [exprToTestDefaultValue2]
    cases h : exprToTestDefaultValue elt env with
    | none => exact absurd h ih
    | some v => simp [h]
  | mapType key value =>
    have ihk := exprToTestDefaultValue_ne_none env pkgs henv key
    have ihv := exprToTestDefaultValue_ne_none env pkgs henv value
    simp only [exprToTestDefaultValue2]
    cases hk : exprToTestDefaultValue key env with
    | none => exact absurd hk ihk
    | some kv =>
      cases hv : exprToTestDefaultValue value env with
      | none => exact absurd hv ihv
      | some vv => simp [hk, hv]
  | selectorExpr x sel => simp [exprToTestDefaultValue2]
  | indexExpr x index => simp [exprToTestDefaultValue2]
  | indexListExpr x indices => simp [exprToTestDefaultValue2]
  | otherExpr => simp [exprToTestDefaultValue2]

/-- The classifier is total once the directory load has succeeded. -/
theorem isPrimitivePointer_ne_none (env : DirEnv) (pkgs : List Pkg)
    (henv : env.loadResult = some pkgs) (e : Expr) :
    isPrimitivePointer e env ≠ none := by
  cases e <;> simp [isPrimitivePointer, henv]

/-- Field-entry processing is total once the directory load has succeeded. -/
theorem fieldEntryDescriptors_ne_none (env : DirEnv) (pkgs : List Pkg)
    (henv : env.loadResult = some pkgs) (f : Field) :
    fieldEntryDescriptors f env ≠ none := by
  have h1 := isPrimitivePointer_ne_none env pkgs henv f.type
  have h2 := exprToTestDefaultValue_ne_none env pkgs henv f.type
  have h3 := exprToTestDefaultValue2_ne_none env pkgs henv f.type
  simp only [fieldEntryDescriptors]
  cases hp : isPrimitivePointer f.type env with
  | none => exact absurd hp h1
  | some pp =>
    cases ha : exprToTestDefaultValue f.type env with
    | none => exact absurd ha h2
    | some a =>
      cases hb : exprToTestDefaultValue2 f.type env with
      | none => exact absurd hb h3
      | some b => simp [hp, ha, hb]

/-- Struct-field collection is total once the directory load has succeeded. -/
theorem structFieldsOf_ne_none (env : DirEnv) (pkgs : List Pkg)
    (henv : env.loadResult = some pkgs) :
    ∀ fields : List Field, structFieldsOf fields env ≠ none
  | [] => by simp [structFieldsOf]
  | f :: rest => by
    have h1 := fieldEntryDescriptors_ne_none env pkgs henv f
    have ih := structFieldsOf_ne_none env pkgs henv rest
    simp only [structFieldsOf]
    cases hd : fieldEntryDescriptors f env with
    | none => exact absurd hd h1
    | some ds =>
      cases hr : structFieldsOf rest env with
      | none => exact absurd hr ih
      | some p => simp [hd, hr]

/-- Spec collection is total once the directory load has succeeded. -/
theorem collectFromSpecs_ne_none (env : DirEnv) (pkgs : List Pkg)
    (henv : env.loadResult = some pkgs) :
    ∀ specs : List GoSpec, collectFromSpecs specs env ≠ none
  | [] => by simp [collectFromSpecs]
  | .otherSpec :: rest => by
    simpa [collectFromSpecs] using collectFromSpecs_ne_none env pkgs henv rest
  | .typeSpec nm tps .nonStruct :: rest => by
    simpa [collectFromSpecs] using collectFromSpecs_ne_none env pkgs henv rest
  | .typeSpec nm tps (.structType fields) :: rest => by
    have h1 := structFieldsOf_ne_none env pkgs henv fields
    have ih := collectFromSpecs_ne_none env pkgs henv rest
    simp only [collectFromSpecs]
    cases hf : structFieldsOf fields env with
    | none => exact absurd hf h1
    | some p =>
      cases hr : collectFromSpecs rest env with
      | none => exact absurd hr ih
      | some q => simp [hf, hr]

/-- Declaration collection is total once the directory load has succeeded. -/
theorem collectFromDecls_ne_none (env : DirEnv) (pkgs : List Pkg)
    (henv : env.loadResult = some pkgs) :
    ∀ decls : List GoDecl, collectFromDecls decls env ≠ none
  | [] => by simp [collectFromDecls]
  | .otherDecl :: rest => by
    simpa [collectFromDecls] using collectFromDecls_ne_none env pkgs henv rest
  | .genDecl isType specs :: rest => by
    have h1 := collectFromSpecs_ne_none env pkgs henv specs
    have ih := collectFromDecls_ne_none env pkgs henv rest
    simp only [collectFromDecls]
    cases isType with
    | false => simpa using ih
    | true =>
      cases hs : collectFromSpecs specs env with
      | none => exact absurd hs h1
      | some p =>
        cases hr : collectFromDecls rest env with
        | none => exact absurd hr ih
        | some q => simp [hs, hr]

/-- The count accumulated by struct-field collection is the bound-name count of
the field list. -/
theorem structFieldsOf_count (env : DirEnv) :
    ∀ (fields : List Field) (ds : List StructField) (cnt : Nat),
      structFieldsOf fields env = some (ds, cnt) →
      cnt = (fields.map (fun f => f.names.length)).sum
  | [], ds, cnt => by
    intro h
    simp only [structFieldsOf, Option.some.injEq, Prod.mk.injEq] at h
    simp [← h.2]
  | f :: rest, ds, cnt => by
    intro h
    simp only [structFieldsOf] at h
    cases hd : fieldEntryDescriptors f env with
    | none => rw [hd] at h; cases h
    | some d =>
      rw [hd] at h
      cases hr : structFieldsOf rest env with
      | none => rw [hr] at h; cases h
      | some p =>
        obtain ⟨ds', cnt'⟩ := p
        rw [hr] at h
        simp only [Option.some.injEq, Prod.mk.injEq] at h
        have ih := structFieldsOf_count env rest ds' cnt' hr
        simp [← h.2, ih]

/-- The count accumulated by spec collection is the aggregate bound-name count
of the specs. -/
theorem collectFromSpecs_count (env : DirEnv) :
    ∀ (specs : List GoSpec) (sis : List StructInfo) (cnt : Nat),
      collectFromSpecs specs env = some (sis, cnt) →
      cnt = (specs.map structSpecFieldCount).sum
  | [], sis, cnt => by
    intro h
    simp only [collectFromSpecs, Option.some.injEq, Prod.mk.injEq] at h
    simp [← h.2]
  | .otherSpec :: rest, sis, cnt => by
    intro h
    rw [collectFromSpecs] at h
    have ih := collectFromSpecs_count env rest sis cnt h
    simp [ih, structSpecFieldCount]
  | .typeSpec nm tps .nonStruct :: rest, sis, cnt => by
    intro h
    rw [collectFromSpecs] at h
    have ih := collectFromSpecs_count env rest sis cnt h
    simp [ih, structSpecFieldCount]
  | .typeSpec nm tps (.structType fields) :: rest, sis, cnt => by
    intro h
    simp only [collectFromSpecs] at h
    cases hf : structFieldsOf fields env with
    | none => rw [hf] at h; cases h
    | some p =>
      obtain ⟨ds, c1⟩ := p
      rw [hf] at h
      cases hr : collectFromSpecs rest env with
      | none => rw [hr] at h; cases h
      | some q =>
        obtain ⟨sis', c2⟩ := q
        rw [hr] at h
        simp only [Option.some.injEq, Prod.mk.injEq] at h
        have e1 := structFieldsOf_count env fields ds c1 hf
        have e2 := collectFromSpecs_count env rest sis' c2 hr
        simp [← h.2, e1, e2, structSpecFieldCount]

/-- The count accumulated by declaration collection is the unit's aggregate
field count. -/
theorem collectFromDecls_count (env : DirEnv) :
    ∀ (decls : List GoDecl) (sis : List StructInfo) (cnt : Nat),
      collectFromDecls decls env = some (sis, cnt) →
      cnt = (decls.map declFieldCount).sum
  | [], sis, cnt => by
    intro h
    simp only [collectFromDecls, Option.some.injEq, Prod.mk.injEq] at h
    simp [← h.2]
  | .otherDecl :: rest, sis, cnt => by
    intro h
    rw [collectFromDecls] at h
    have ih := collectFromDecls_count env rest sis cnt h
    simp [ih, declFieldCount]
  | .genDecl isType specs :: rest, sis, cnt => by
    intro h
    simp only [collectFromDecls] at h
    cases isType with
    | false =>
      simp only [Bool.false_eq_true, if_false] at h
      have ih := collectFromDecls_count env rest sis cnt h
      simp [ih, declFieldCount]
    | true =>
      simp only [if_true] at h
      cases hs : collectFromSpecs specs env with
      | none => rw [hs] at h; cases h
      | some p =>
        obtain ⟨sis1, c1⟩ := p
        rw [hs] at h
        cases hr : collectFromDecls rest env with
        | none => rw [hr] at h; cases h
        | some q =>
          obtain ⟨sis2, c2⟩ := q
          rw [hr] at h
          simp only [Option.some.injEq, Prod.mk.injEq] at h
          have e1 := collectFromSpecs_count env specs sis1 c1 hs
          have e2 := collectFromDecls_count env rest sis2 c2 hr
          simp [← h.2, e1, e2, declFieldCount]

/-- C1 (counterexample): for a plain boolean field both synthesized example
literals are `true` — value B is not `false`, and the two values do not differ
from each other, refuting the claim at the boolean scalar kind. -/
theorem c1_counterexample :
    exprToTestDefaultValue (.ident ("bool")) envEmptyPkgs = some ("true") ∧
    exprToTestDefaultValue2 (.ident ("bool")) envEmptyPkgs = some ("true") ∧
    exprToTestDefaultValue2 (.ident ("bool")) envEmptyPkgs ≠ some ("false") := by
  decide

set_option maxHeartbeats 1000000 in
/-- C1 (amended): for every scalar kind both synthesized literals are produced
(no panic) and differ from the kind's zero literal; for every kind except
boolean they also differ from each other; for a boolean field both value A and
value B are the literal `true`. -/
theorem c1_scalar_values (k : String) (env : DirEnv) (hk : k ∈ directScalarNames) :
    exprToTestDefaultValue (.ident k) env ≠ none ∧
    exprToTestDefaultValue (.ident k) env ≠ some (zeroLiteralOfKind k) ∧
    exprToTestDefaultValue2 (.ident k) env ≠ none ∧
    exprToTestDefaultValue2 (.ident k) env ≠ some (zeroLiteralOfKind k) ∧
    (k ≠ ("bool") →
      exprToTestDefaultValue (.ident k) env ≠ exprToTestDefaultValue2 (.ident k) env) ∧
    (k = ("bool") →
      exprToTestDefaultValue (.ident k) env = some ("true") ∧
      exprToTestDefaultValue2 (.ident k) env = some ("true")) := by
  fin_cases hk <;>
    simp [exprToTestDefaultValue, exprToTestDefaultValue2, identDefaultValue, identDefaultValue2,
          intNames, zeroLiteralOfKind]

/-- C1 (witness): the amended statement instantiated at the boolean kind. -/
theorem c1_scalar_values_witness :
    exprToTestDefaultValue (.ident ("bool")) envEmptyPkgs ≠ none ∧
    exprToTestDefaultValue (.ident ("bool")) envEmptyPkgs ≠ some (zeroLiteralOfKind ("bool")) ∧
    exprToTestDefaultValue2 (.ident ("bool")) envEmptyPkgs ≠ none ∧
    exprToTestDefaultValue2 (.ident ("bool")) envEmptyPkgs ≠ some (zeroLiteralOfKind ("bool")) ∧
    (exprToTestDefaultValue (.ident ("bool")) envEmptyPkgs = some ("true") ∧
     exprToTestDefaultValue2 (.ident ("bool")) envEmptyPkgs = some ("true")) :=
  ⟨(c1_scalar_values ("bool") envEmptyPkgs (by decide)).1,
   (c1_scalar_values ("bool") envEmptyPkgs (by decide)).2.1,
   (c1_scalar_values ("bool") envEmptyPkgs (by decide)).2.2.1,
   (c1_scalar_values ("bool") envEmptyPkgs (by decide)).2.2.2.1,
   (c1_scalar_values ("bool") envEmptyPkgs (by decide)).2.2.2.2.2 (by rfl)⟩

/-- C2 (counterexample): when the directory load itself fails, the classifier
does not return false for a pointer field — it dereferences the nil load
response (the modelled panic `none`), so a failed load is escalated to a
crash rather than absorbed. -/
theorem c2_counterexample :
    isPrimitivePointer (.starExpr (.ident ("int"))) envLoadFail = none ∧
    isPrimitivePointer (.starExpr (.ident ("int"))) envLoadFail ≠ some false := by
  decide

/-- C2 (amended): when the directory load succeeds but semantic resolution
yields no information for the pointee, the classifier returns false, and the
synthesizer falls back to empty output (some package returned a nil type) or
to the opaque empty-literal form (no package resolved it); absence of type
information is absorbed — only a failed load itself crashes, as the
counterexample shows. -/
theorem c2_no_info_not_escalated (x : Expr) (nm : String) (pkgs : List Pkg) (env : DirEnv)
    (hload : env.loadResult = some pkgs)
    (hx : ∀ pkg ∈ pkgs, pkg.typeOf x = none)
    (hname : ∀ pkg ∈ pkgs, pkg.typeOf (.ident nm) = none)
    (hnm : nm ∉ directScalarNames) :
    isPrimitivePointer (.starExpr x) env = some false ∧
    (exprToTestDefaultValue (.ident nm) env = some ("") ∨
     exprToTestDefaultValue (.ident nm) env = some (nm ++ ("\x7b\x7d"))) := by
  simp only [directScalarNames, List.mem_cons, List.not_mem_nil, or_false, not_or] at hnm
  obtain ⟨h1, h2, h3, h4, h5, h6, h7, h8, h9, h10, h11, h12, h13, h14, h15⟩ := hnm
  constructor
  · simp only [isPrimitivePointer, hload]
    rw [pkgsHaveBasic_eq_false x pkgs hx]
  · simp only [exprToTestDefaultValue]
    rw [identDefaultValue, hload]
    rw [if_neg h1]
    rw [if_neg (by simp [intNames, h2, h3, h4, h5, h6, h7, h8, h9, h10, h11])]
    rw [if_neg (by simp [h12, h13])]
    rw [if_neg h14]
    rw [if_neg h15]
    cases pkgs with
    | nil => simp [underlyingBasicName, intNames]
    | cons p rest =>
      have h0 : p.typeOf (.ident nm) = none := hname p (by simp)
      simp [underlyingBasicName, h0, intNames]

/-- C2 (witness): the amended statement at a one-package directory that
resolves nothing and an unresolved named type. -/
theorem c2_no_info_not_escalated_witness :
    isPrimitivePointer (.starExpr (.ident ("Mystery"))) envNoInfo = some false ∧
    (exprToTestDefaultValue (.ident ("Mystery")) envNoInfo = some ("") ∨
     exprToTestDefaultValue (.ident ("Mystery")) envNoInfo = some (("Mystery") ++ ("\x7b\x7d"))) :=
  c2_no_info_not_escalated (.ident ("Mystery")) ("Mystery") [pkgNoInfo] envNoInfo (by rfl)
    (by intro pkg hp; rw [List.mem_singleton] at hp; subst hp; rfl)
    (by intro pkg hp; rw [List.mem_singleton] at hp; subst hp; rfl)
    (by decide)

/-- C3 (counterexample): for the field type `*int` — a pointer to a primitive
scalar — the synthesized value is the pointee's non-zero literal `int(1)`,
not a freshly-allocated zero-valued instance `new(int)`. -/
theorem c3_counterexample :
    exprToTestDefaultValue (.starExpr (.ident ("int"))) envIntBasic = some ("int(1)") ∧
    exprToTestDefaultValue (.starExpr (.ident ("int"))) envIntBasic ≠ some ("new(int)") := by
  decide

/-- C3 (amended): for a pointer field classified as a primitive pointer both
synthesized values equal the pointee's value-A literal — so the A and B texts
are identical — while the freshly-allocated zero-valued form `new(T)` is
produced exactly for pointer fields that are not primitive pointers. -/
theorem c3_pointer_values (x : Expr) (env : DirEnv) :
    (isPrimitivePointer (.starExpr x) env = some true →
      exprToTestDefaultValue (.starExpr x) env = exprToTestDefaultValue x env ∧
      exprToTestDefaultValue2 (.starExpr x) env = exprToTestDefaultValue x env) ∧
    (isPrimitivePointer (.starExpr x) env = some false →
      exprToTestDefaultValue (.starExpr x) env = some (("new(") ++ exprToString x ++ (")")) ∧
      exprToTestDefaultValue2 (.starExpr x) env = some (("new(") ++ exprToString x ++ (")"))) := by
  constructor <;> intro h <;>
    exact ⟨by simp [exprToTestDefaultValue, h], by simp [exprToTestDefaultValue2, h]⟩

/-- C3 (witness): the amended statement at the primitive pointer `*int`. -/
theorem c3_pointer_values_witness :
    exprToTestDefaultValue (.starExpr (.ident ("int"))) envIntBasic
      = exprToTestDefaultValue (.ident ("int")) envIntBasic ∧
    exprToTestDefaultValue2 (.starExpr (.ident ("int"))) envIntBasic
      = exprToTestDefaultValue (.ident ("int")) envIntBasic :=
  (c3_pointer_values (.ident ("int")) envIntBasic).1 (by decide)

/-- C4 (counterexample): for a named type `MyStr` whose underlying kind is
textual, value B is `MyStr("str")` — identical to value A — not the claimed
`MyStr("str2")`. -/
theorem c4_counterexample :
    exprToTestDefaultValue2 (.ident ("MyStr")) envMyStr = some ("MyStr(\"str\")") ∧
    exprToTestDefaultValue2 (.ident ("MyStr")) envMyStr ≠ some ("MyStr(\"str2\")") ∧
    exprToTestDefaultValue (.ident ("MyStr")) envMyStr
      = exprToTestDefaultValue2 (.ident ("MyStr")) envMyStr := by
  decide

set_option maxHeartbeats 1000000 in
/-- C4 (amended): for a named type whose underlying representation is a scalar
kind, the synthesized values are the constructor applied to the literal —
1 and 2 for integers, 1.0 and 2.0 for floats, true and false for boolean —
but for a textual underlying both A and B are the constructor applied to
`"str"`, and for a byte underlying the values are the type name concatenated
with the bare digits 1 and 2 (not a constructor application). -/
theorem c4_named_scalar_values (nm k : String) (pkgs : List Pkg) (env : DirEnv)
    (hnm : nm ∉ directScalarNames)
    (hload : env.loadResult = some pkgs)
    (hbasic : underlyingBasicName pkgs (.ident nm) = some k) :
    (k ∈ intNames →
      exprToTestDefaultValue (.ident nm) env = some (nm ++ ("(1)")) ∧
      exprToTestDefaultValue2 (.ident nm) env = some (nm ++ ("(2)"))) ∧
    ((k = ("float32") ∨ k = ("float64")) →
      exprToTestDefaultValue (.ident nm) env = some (nm ++ ("(1.0)")) ∧
      exprToTestDefaultValue2 (.ident nm) env = some (nm ++ ("(2.0)"))) ∧
    (k = ("bool") →
      exprToTestDefaultValue (.ident nm) env = some (nm ++ ("(true)")) ∧
      exprToTestDefaultValue2 (.ident nm) env = some (nm ++ ("(false)"))) ∧
    (k = ("string") →
      exprToTestDefaultValue (.ident nm) env = some (nm ++ ("(\"str\")")) ∧
      exprToTestDefaultValue2 (.ident nm) env = some (nm ++ ("(\"str\")"))) ∧
    (k = ("byte") →
      exprToTestDefaultValue (.ident nm) env = some (nm ++ ("1")) ∧
      exprToTestDefaultValue2 (.ident nm) env = some (nm ++ ("2"))) := by
  simp only [directScalarNames, List.mem_cons, List.not_mem_nil, or_false, not_or] at hnm
  obtain ⟨h1, h2, h3, h4, h5, h6, h7, h8, h9, h10, h11, h12, h13, h14, h15⟩ := hnm
  have hAv : exprToTestDefaultValue (.ident nm) env
      = (if k = ("string") then some (nm ++ ("(\"str\")"))
         else if k ∈ intNames then some (nm ++ ("(1)"))
         else if k = ("bool") then some (nm ++ ("(true)"))
         else if k = ("float32") ∨ k = ("float64") then some (nm ++ ("(1.0)"))
         else if k = ("byte") then some (nm ++ ("1"))
         else some (nm ++ ("\x7b\x7d"))) := by
    simp only [exprToTestDefaultValue]
    rw [identDefaultValue, hload]
    rw [if_neg h1]
    rw [if_neg (by simp [intNames, h2, h3, h4, h5, h6, h7, h8, h9, h10, h11])]
    rw [if_neg (by simp [h12, h13])]
    rw [if_neg h14]
    rw [if_neg h15]
    simp [hbasic]
  have hBv : exprToTestDefaultValue2 (.ident nm) env
      = (if k = ("string") then some (nm ++ ("(\"str\")"))
         else if k ∈ intNames then some (nm ++ ("(2)"))
         else if k = ("bool") then some (nm ++ ("(false)"))
         else if k = ("float32") ∨ k = ("float64") then some (nm ++ ("(2.0)"))
         else if k = ("byte") then some (nm ++ ("2"))
         else some (nm ++ ("\x7b\x7d"))) := by
    simp only [exprToTestDefaultValue2]
    rw [identDefaultValue2, hload]
    rw [if_neg h1]
    rw [if_neg (by simp [intNames, h2, h3, h4, h5, h6, h7, h8, h9, h10, h11])]
    rw [if_neg (by simp [h12, h13])]
    rw [if_neg h14]
    rw [if_neg h15]
    simp [hbasic]
  refine ⟨?_, ?_, ?_, ?_, ?_⟩
  · intro hk
    fin_cases hk <;> simp [hAv, hBv, intNames]
  · rintro (rfl | rfl) <;> simp [hAv, hBv, intNames]
  · rintro rfl
    simp [hAv, hBv, intNames]
  · rintro rfl
    simp [hAv, hBv, intNames]
  · rintro rfl
    simp [hAv, hBv, intNames]

/-- C4 (witness): the amended statement at the named type `MyInt` with
underlying kind `int`. -/
theorem c4_named_scalar_values_witness :
    exprToTestDefaultValue (.ident ("MyInt")) envMyInt = some (("MyInt") ++ ("(1)")) ∧
    exprToTestDefaultValue2 (.ident ("MyInt")) envMyInt = some (("MyInt") ++ ("(2)")) :=
  (c4_named_scalar_values ("MyInt") ("int") [pkgBasicFor ("MyInt") ("int")] envMyInt
    (by decide) (by rfl) (by decide)).1 (by decide)

/-- C5 (counterexample): a unit declaring an empty record `Empty` next to a
one-field record `P` produces an artifact whose descriptor list still contains
a (field-less) descriptor for `Empty` — the empty record does contribute a
RecordDescriptor, refuting the first half of the claim. -/
theorem c5_counterexample :
    collectTmplData twoStructFile ("accessor") envEmptyPkgs = some (some twoStructFileData) ∧
    ({ structName := ("Empty"), fields := [], typeParamsStr := ("") } : StructInfo)
      ∈ twoStructFileData.structs := by
  decide

/-- C5 (amended): a record declaration with zero field entries still
contributes a RecordDescriptor — with an empty field list — to the collected
output while adding nothing to the field count; consequently a unit whose only
type declaration is such a record produces no artifact at all. -/
theorem c5_empty_record (nm pk : String) (imps : List ImportDecl) (mode : ModeEnum)
    (env : DirEnv) (rest : List GoSpec) :
    collectFromSpecs (.typeSpec nm none (.structType []) :: rest) env
      = Option.map
          (fun p => ({ structName := nm, fields := [], typeParamsStr := ("") } :: p.1, p.2))
          (collectFromSpecs rest env) ∧
    collectTmplData
        { pkgName := pk, imports := imps,
          decls := [.genDecl true [.typeSpec nm none (.structType [])]] } mode env
      = some none := by
  constructor
  · rw [collectFromSpecs]
    cases hr : collectFromSpecs rest env with
    | none => simp [structFieldsOf, hr]
    | some p =>
      obtain ⟨sis, cnt⟩ := p
      simp [structFieldsOf, hr, typeParamsStrOf, typeParamNames]
  · rw [collectTmplData]
    simp [collectFromDecls, collectFromSpecs, structFieldsOf, typeParamsStrOf, typeParamNames]

/-- C6: resolving the same directory twice returns the identical stored
response (identity-equal, same allocation), the second call leaves the state
untouched, and the instrumented count of underlying analyses across both calls
is exactly one more than before the first call. -/
theorem c6_loadPackages_cached (w : World) (p : String) (s s₁ : CacheState) (r : PkgResp)
    (hfresh : findCache s.cache p = none)
    (h1 : loadPackages w p s = (.ok r, s₁)) :
    loadPackages w p s₁ = (.ok r, s₁) ∧ s₁.loadCalls = s.loadCalls + 1 := by
  rw [loadPackages, hfresh] at h1
  cases hw : w.loadOutcome p with
  | none =>
    rw [hw] at h1
    exact absurd h1 (by simp)
  | some pkgs =>
    rw [hw] at h1
    simp only [Prod.mk.injEq, Except.ok.injEq] at h1
    obtain ⟨hr, hs⟩ := h1
    subst hr
    subst hs
    constructor
    · rw [loadPackages]
      simp [findCache]
    · rfl

/-- C6 (witness): one successful load of directory `d` from the empty cache,
then a cache hit returning the identical response. -/
theorem c6_loadPackages_cached_witness :
    loadPackages world0 ("d") cacheState1 = (.ok resp0, cacheState1) ∧
    cacheState1.loadCalls = cacheState0.loadCalls + 1 :=
  c6_loadPackages_cached world0 ("d") cacheState0 cacheState1 resp0 (by rfl) (by rfl)

/-- C7: the four generation-mode toggles realize the spec's transition table
exactly over all four enumerated states: enableGetters sends setter to
accessor and the rest to getter; enableSetters sends getter to accessor and
the rest to setter; disableGetters sends accessor to setter and the rest to
unknown; disableSetters sends accessor to getter and the rest to unknown. -/
theorem c7_toggle_table :
    (EnableGetters (optWith ModeSetter)).mode = ModeAccessor ∧
    (EnableGetters (optWith ModeGetter)).mode = ModeGetter ∧
    (EnableGetters (optWith ModeAccessor)).mode = ModeGetter ∧
    (EnableGetters (optWith ModeUnknown)).mode = ModeGetter ∧
    (EnableSetters (optWith ModeGetter)).mode = ModeAccessor ∧
    (EnableSetters (optWith ModeSetter)).mode = ModeSetter ∧
    (EnableSetters (optWith ModeAccessor)).mode = ModeSetter ∧
    (EnableSetters (optWith ModeUnknown)).mode = ModeSetter ∧
    (DisableGetters (optWith ModeAccessor)).mode = ModeSetter ∧
    (DisableGetters (optWith ModeGetter)).mode = ModeUnknown ∧
    (DisableGetters (optWith ModeSetter)).mode = ModeUnknown ∧
    (DisableGetters (optWith ModeUnknown)).mode = ModeUnknown ∧
    (DisableSetters (optWith ModeAccessor)).mode = ModeGetter ∧
    (DisableSetters (optWith ModeGetter)).mode = ModeUnknown ∧
    (DisableSetters (optWith ModeSetter)).mode = ModeUnknown ∧
    (DisableSetters (optWith ModeUnknown)).mode = ModeUnknown := by
  decide

/-- C8: a compilation unit whose aggregate field count across all records is
zero yields no artifact: the collector never returns a FileData for it at any
environment, and under a successful directory load it returns the skip value,
so an empty artifact can never reach emission. -/
theorem c8_zero_fields_no_artifact (node : GoFile) (mode : ModeEnum) (env : DirEnv)
    (fd : FileData) (h : aggregateFieldCount node = 0) :
    collectTmplData node mode env ≠ some (some fd) ∧
    (∀ pkgs, env.loadResult = some pkgs → collectTmplData node mode env = some none) := by
  rw [aggregateFieldCount] at h
  constructor
  · intro hcon
    rw [collectTmplData] at hcon
    cases hc : collectFromDecls node.decls env with
    | none => rw [hc] at hcon; cases hcon
    | some p =>
      obtain ⟨sis, cnt⟩ := p
      rw [hc] at hcon
      have hcnt := collectFromDecls_count env node.decls sis cnt hc
      rw [h] at hcnt
      simp [hcnt] at hcon
  · intro pkgs henv
    rw [collectTmplData]
    cases hc : collectFromDecls node.decls env with
    | none => exact absurd hc (collectFromDecls_ne_none env pkgs henv node.decls)
    | some p =>
      obtain ⟨sis, cnt⟩ := p
      have hcnt := collectFromDecls_count env node.decls sis cnt hc
      rw [h] at hcnt
      simp [hcnt]

/-- C8 (witness): the interface-only unit (spec scenario 5) yields the skip
value and not an artifact. -/
theorem c8_zero_fields_no_artifact_witness :
    collectTmplData interfaceOnlyFile ("accessor") envEmptyPkgs ≠ some (some dummyFileData) ∧
    collectTmplData interfaceOnlyFile ("accessor") envEmptyPkgs = some none :=
  ⟨(c8_zero_fields_no_artifact interfaceOnlyFile ("accessor") envEmptyPkgs dummyFileData
      (by decide)).1,
   (c8_zero_fields_no_artifact interfaceOnlyFile ("accessor") envEmptyPkgs dummyFileData
      (by decide)).2 [] (by rfl)⟩

/-- C9: for a field whose declared type is a pointer classified as primitive,
every descriptor the walker emits for it carries primitivePointer = true and a
dereferenced type equal to the rendered pointee text — the rendered field type
with the leading star removed. -/
theorem c9_primitive_pointer_descriptor (x : Expr) (names : List String) (env : DirEnv)
    (a b : String)
    (h : isPrimitivePointer (.starExpr x) env = some true)
    (ha : exprToTestDefaultValue (.starExpr x) env = some a)
    (hb : exprToTestDefaultValue2 (.starExpr x) env = some b) :
    fieldEntryDescriptors { names := names, type := .starExpr x } env
      = some (names.map fun nm =>
          { name := nm, type := exprToString (.starExpr x),
            deferrencedFieldType := exprToString x, primitivePointer := true,
            nonZeroValue := a, nonZeroValue2 := b }) := by
  rw [fieldEntryDescriptors]
  dsimp only
  rw [h, ha, hb]
  have hdrop : (exprToString (.starExpr x)).drop 1 = exprToString x := by
    rw [show exprToString (.starExpr x) = ("*") ++ exprToString x from rfl]
    exact string_drop_one_star (exprToString x)
  simp [hdrop]

/-- C9 (witness): the spec's scenario of a field named `name` of type
`*string`: classified primitive, dereferenced type `string`. -/
theorem c9_primitive_pointer_descriptor_witness :
    fieldEntryDescriptors
        { names := [("name")], type := .starExpr (.ident ("string")) } envStringBasic
      = some [{ name := ("name"), type := ("*string"), deferrencedFieldType := ("string"),
                primitivePointer := true, nonZeroValue := ("\"str\""),
                nonZeroValue2 := ("\"str\"") }] :=
  c9_primitive_pointer_descriptor (.ident ("string")) [("name")] envStringBasic
    ("\"str\"") ("\"str\"") (by decide) (by decide) (by decide)

/-- C10: the generation mode is a raw string, not a closed enumeration: the
Mode option stores any string unchecked, and each toggle is total over
arbitrary strings, sending every value outside its explicitly matched state
through its default arm (getter, setter, or unknown respectively). -/
theorem c10_mode_is_string (s : String) (o : Options) :
    (Mode s o).mode = s ∧
    (s ≠ ModeSetter → (EnableGetters { o with mode := s }).mode = ModeGetter) ∧
    (s ≠ ModeGetter → (EnableSetters { o with mode := s }).mode = ModeSetter) ∧
    (s ≠ ModeAccessor → (DisableGetters { o with mode := s }).mode = ModeUnknown) ∧
    (s ≠ ModeAccessor → (DisableSetters { o with mode := s }).mode = ModeUnknown) := by
  refine ⟨rfl, ?_, ?_, ?_, ?_⟩ <;> intro h <;>
    simp [EnableGetters, EnableSetters, DisableGetters, DisableSetters, h]

/-- C10 (witness): the toggles and the Mode option at the out-of-enumeration
string `bogus`. -/
theorem c10_mode_is_string_witness :
    (Mode ("bogus") defaultOptions).mode = ("bogus") ∧
    (EnableGetters { defaultOptions with mode := ("bogus") }).mode = ModeGetter ∧
    (EnableSetters { defaultOptions with mode := ("bogus") }).mode = ModeSetter ∧
    (DisableGetters { defaultOptions with mode := ("bogus") }).mode = ModeUnknown ∧
    (DisableSetters { defaultOptions with mode := ("bogus") }).mode = ModeUnknown :=
  ⟨(c10_mode_is_string ("bogus") defaultOptions).1,
   (c10_mode_is_string ("bogus") defaultOptions).2.1 (by decide),
   (c10_mode_is_string ("bogus") defaultOptions).2.2.1 (by decide),
   (c10_mode_is_string ("bogus") defaultOptions).2.2.2.1 (by decide),
   (c10_mode_is_string ("bogus") defaultOptions).2.2.2.2 (by decide)⟩

end AccessorGen
